import Mathlib

/-!
Verification of the real-time karaoke mixing engine of musicio-ultra.

The definitions below are a shallow embedding of:
  * `audio_callback`, `rebuild_fx_board`, `on_seek` and the karaoke session
    start logic in `src/gui/desktop_app_ultra.py`;
  * `seek_to`, `toggle_play_pause` and the FX-slider write path in
    `src/gui/karaoke_player.py`;
  * the VU meter (`set_levels`, `set_levels_from_amplitude`,
    `amplitude_to_db`, `reset`) in `src/gui/vu_meter.py`.

Audio samples are modelled as rationals; a stereo frame is a pair.
The external pedalboard effects chain is modelled as a function from the
stereo microphone block to an optional block: `none` models the chain
raising an exception for that block (the `except` path in the callback).
-/

namespace Musicio

/-- Hard clip of one sample to [-1, 1]: `np.clip(x, -1.0, 1.0)`. -/
def clip1 (x : ℚ) : ℚ := max (-1) (min 1 x)

/-- Mono microphone block duplicated to stereo:
`np.stack([indata[:, 0], indata[:, 0]], axis=-1)`. -/
def mic_stereo (indata : List ℚ) : List (ℚ × ℚ) :=
  indata.map (fun x => (x, x))

/-- Scale a stereo frame by a scalar (NumPy broadcast `block * volume`). -/
def scaleFrame (v : ℚ) (f : ℚ × ℚ) : ℚ × ℚ := (f.1 * v, f.2 * v)

/-- Sample-wise sum of two stereo frames. -/
def addFrame (a b : ℚ × ℚ) : ℚ × ℚ := (a.1 + b.1, a.2 + b.2)

/-- Clip both channels of a stereo frame. -/
def clipFrame (f : ℚ × ℚ) : ℚ × ℚ := (clip1 f.1, clip1 f.2)

/-- `backing_audio[start:end]` with `end = min(start + frames, len(backing))`,
zero-padded at the tail to `frames` rows:
`np.pad(backing_chunk, ((0, frames - len(backing_chunk)), (0, 0)))`. -/
def backing_slice (backing : List (ℚ × ℚ)) (start frames : Nat) : List (ℚ × ℚ) :=
  let chunk := (backing.drop start).take frames
  chunk ++ List.replicate (frames - chunk.length) (0, 0)

/-- The microphone contribution of one callback: the effects chain applied to
the stereo microphone block, scaled by the output volume; when the chain
raises (`none`), the unprocessed stereo block scaled by the volume
(the `except` fallback in `audio_callback`). -/
def mic_out (fx_board : List (ℚ × ℚ) → Option (List (ℚ × ℚ)))
    (volume : ℚ) (indata : List ℚ) : List (ℚ × ℚ) :=
  match fx_board (mic_stereo indata) with
  | some mic_fx => mic_fx.map (scaleFrame volume)
  | none => (mic_stereo indata).map (scaleFrame volume)

/-- Result of one callback invocation: the updated `frame_idx[0]` and the
block written to `outdata`. -/
structure CbResult where
  frame_idx : Nat
  outdata : List (ℚ × ℚ)
deriving Repr, DecidableEq

/-- One invocation of `audio_callback` in `desktop_app_ultra.py`.
`frame_idx` is `frame_idx[0]` on entry; `indata` is the mono microphone
block (`frames = len(indata)`).  Mid-track branch (`start < len(backing)`):
advance to `end = min(start + frames, len(backing))`, mix the zero-padded
backing chunk with the processed microphone, clip to [-1, 1].  End-of-track
branch: position unchanged, processed microphone only, with no clip. -/
def audio_callback (backing : List (ℚ × ℚ))
    (fx_board : List (ℚ × ℚ) → Option (List (ℚ × ℚ)))
    (volume : ℚ) (frame_idx : Nat) (indata : List ℚ) : CbResult :=
  if frame_idx < backing.length then
    { frame_idx := min (frame_idx + indata.length) backing.length
      outdata := (List.zipWith addFrame (backing_slice backing frame_idx indata.length)
        (mic_out fx_board volume indata)).map clipFrame }
  else
    { frame_idx := frame_idx
      outdata := mic_out fx_board volume indata }

/-- The playback position after folding a sequence of callback invocations
(one entry of `blocks` per invocation, each entry the mono mic block). -/
def run_positions (backing : List (ℚ × ℚ))
    (fx_board : List (ℚ × ℚ) → Option (List (ℚ × ℚ)))
    (volume : ℚ) (blocks : List (List ℚ)) (p : Nat) : Nat :=
  blocks.foldl (fun pos blk => (audio_callback backing fx_board volume pos blk).frame_idx) p

/-- The kind of a DSP stage, used to state chain-ordering facts. -/
inductive StageKind where
  | compressor
  | peakFilter
  | delay
  | reverb
deriving DecidableEq, Repr

/-- One pedalboard DSP stage with the parameters the builder passes to it. -/
inductive Stage where
  | compressor (threshold_db ratio attack_ms release_ms : ℚ)
  | peakFilter (cutoff_frequency_hz gain_db q : ℚ)
  | delay (delay_seconds feedback mix : ℚ)
  | reverb (room_size damping wet_level dry_level width : ℚ)
deriving DecidableEq, Repr

def Stage.kind : Stage → StageKind
  | .compressor .. => .compressor
  | .peakFilter .. => .peakFilter
  | .delay .. => .delay
  | .reverb .. => .reverb

/-- The `fx_params` dict of `KaraokePlayer`, as a record of rational knobs. -/
structure FxParams where
  reverb_room_size : ℚ
  reverb_wet : ℚ
  echo_delay : ℚ
  echo_feedback : ℚ
  echo_mix : ℚ
  compressor_threshold : ℚ
  compressor_ratio : ℚ
  eq_bass : ℚ
  eq_mid : ℚ
  eq_treble : ℚ
deriving DecidableEq, Repr

/-- The initial `fx_params` values set in `KaraokePlayer.__init__`. -/
def default_fx_params : FxParams :=
  { reverb_room_size := 6/10
    reverb_wet := 25/100
    echo_delay := 3/10
    echo_feedback := 3/10
    echo_mix := 0
    compressor_threshold := -18
    compressor_ratio := 35/10
    eq_bass := 2
    eq_mid := 3
    eq_treble := 15/10 }

/-- `rebuild_fx_board` in `desktop_app_ultra.py`: Compressor, three PeakFilter
bands (100 Hz bass, 3 kHz mid, 10 kHz treble), a Delay stage only when
`echo_mix > 0.01`, then Reverb. -/
def rebuild_fx_board (p : FxParams) : List Stage :=
  [Stage.compressor p.compressor_threshold p.compressor_ratio 3 100,
   Stage.peakFilter 100 p.eq_bass (7/10),
   Stage.peakFilter 3000 p.eq_mid 1,
   Stage.peakFilter 10000 p.eq_treble (7/10)] ++
  (if p.echo_mix > 1/100 then
    [Stage.delay p.echo_delay p.echo_feedback p.echo_mix] else []) ++
  [Stage.reverb p.reverb_room_size (1/2) p.reverb_wet (1 - p.reverb_wet) 1]

/-- The play/pause flag of `KaraokePlayer` together with the audio engine's
`frame_idx[0]` counter. -/
structure PlayerState where
  is_playing : Bool
  frame_idx : Nat
deriving DecidableEq, Repr

/-- `KaraokePlayer.toggle_play_pause`: flips `is_playing` (and updates the
button label); it touches nothing else. -/
def toggle_play_pause (st : PlayerState) : PlayerState :=
  { st with is_playing := !st.is_playing }

/-- One callback invocation threaded through the player/engine state. -/
def callback_step (backing : List (ℚ × ℚ))
    (fx_board : List (ℚ × ℚ) → Option (List (ℚ × ℚ))) (volume : ℚ)
    (st : PlayerState) (indata : List ℚ) : PlayerState × List (ℚ × ℚ) :=
  let r := audio_callback backing fx_board volume st.frame_idx indata
  ({ st with frame_idx := r.frame_idx }, r.outdata)

/-- The keys of the `fx_params` dict. -/
inductive FxKey where
  | reverb_room_size
  | reverb_wet
  | echo_delay
  | echo_feedback
  | echo_mix
  | compressor_threshold
  | compressor_ratio
  | eq_bass
  | eq_mid
  | eq_treble
deriving DecidableEq, Repr

/-- The write in `KaraokePlayer.create_fx_section`'s `on_slider_change`:
`self.fx_params[key] = value` — the raw slider value is stored as-is. -/
def on_slider_change (p : FxParams) (k : FxKey) (v : ℚ) : FxParams :=
  match k with
  | .reverb_room_size => { p with reverb_room_size := v }
  | .reverb_wet => { p with reverb_wet := v }
  | .echo_delay => { p with echo_delay := v }
  | .echo_feedback => { p with echo_feedback := v }
  | .echo_mix => { p with echo_mix := v }
  | .compressor_threshold => { p with compressor_threshold := v }
  | .compressor_ratio => { p with compressor_ratio := v }
  | .eq_bass => { p with eq_bass := v }
  | .eq_mid => { p with eq_mid := v }
  | .eq_treble => { p with eq_treble := v }

/-- Reading `self.fx_params[key]`. -/
def fx_param (p : FxParams) (k : FxKey) : ℚ :=
  match k with
  | .reverb_room_size => p.reverb_room_size
  | .reverb_wet => p.reverb_wet
  | .echo_delay => p.echo_delay
  | .echo_feedback => p.echo_feedback
  | .echo_mix => p.echo_mix
  | .compressor_threshold => p.compressor_threshold
  | .compressor_ratio => p.compressor_ratio
  | .eq_bass => p.eq_bass
  | .eq_mid => p.eq_mid
  | .eq_treble => p.eq_treble

/-- `KaraokePlayer.seek_to`:
`max(0, min(position_samples, len(self.backing_audio) - 1))`.
The target may be negative (`skip_backward`), hence an integer. -/
def seek_to (trackLen : Nat) (position_samples : Int) : Nat :=
  (max 0 (min position_samples ((trackLen : Int) - 1))).toNat

/-- `on_seek` in `start_karaoke`: `frame_idx[0] = position_samples`. -/
def on_seek (st : PlayerState) (pos : Nat) : PlayerState :=
  { st with frame_idx := pos }

/-- A user seek: `seek_to` clamps the target and its `on_seek_callback`
stores the clamped value into the engine's `frame_idx[0]`. -/
def player_seek (trackLen : Nat) (st : PlayerState) (position_samples : Int) :
    PlayerState :=
  on_seek st (seek_to trackLen position_samples)

/-- The pieces of application state `karaoke_record_mix` consults before
starting a session: whether a stream is already active, the remembered
backing-track path, and the first `instrumental`/`backing` WAV found in the
output folder (if any). -/
structure AppState where
  stream_active : Bool
  backing_track : Option String
  output_backing : Option String
deriving DecidableEq, Repr

/-- How a call to `karaoke_record_mix` ends. -/
inductive StartOutcome where
  | stoppedExisting
  | rejected
  | loadError
  | streamOpened (frames : Nat)
deriving DecidableEq, Repr

/-- The session-start control flow of `karaoke_record_mix` + `start_karaoke`
in `desktop_app_ultra.py`.  `fs` maps a path to the frame count of the audio
file there (`none` when missing/unreadable).  An active stream is stopped
instead.  A missing or unreadable path triggers the output-folder search;
if that yields nothing a warning is shown and the function returns before
the stream-open step.  Otherwise `sf.read` loads the file (a read failure is
caught and reported, no stream) and `sd.Stream(...).start()` runs — with no
check anywhere that the track has a nonzero number of frames. -/
def karaoke_record_mix (fs : String → Option Nat) (st : AppState) : StartOutcome :=
  if st.stream_active then .stoppedExisting
  else
    let needs_search : Bool :=
      match st.backing_track with
      | none => true
      | some path => (fs path).isNone
    match (if needs_search then st.output_backing else st.backing_track) with
    | none => .rejected
    | some path =>
      match fs path with
      | none => .loadError
      | some frames => .streamOpened frames

noncomputable section

/-- `max(-60, min(0, db))`, the dB clamp used throughout `vu_meter.py`. -/
def clamp_db (x : ℝ) : ℝ := max (-60) (min 0 x)

/-- `VUMeter.amplitude_to_db`: amplitude ≤ 0 returns the -60.0 floor,
otherwise `20 * log10(amplitude)` clamped to [-60, 0]. -/
def amplitude_to_db (amplitude : ℝ) : ℝ :=
  if amplitude ≤ 0 then -60
  else clamp_db (20 * Real.logb 10 amplitude)

/-- The mutable state of a `VUMeter`: channel levels, peak-hold values and
the wall-clock time of each channel's last peak rise. -/
structure VUState where
  left_level : ℝ
  right_level : ℝ
  left_peak : ℝ
  right_peak : ℝ
  last_peak_L : ℝ
  last_peak_R : ℝ

/-- `VUMeter.__init__`: levels and peaks start at -60 dB. -/
def vu_init : VUState :=
  { left_level := -60, right_level := -60, left_peak := -60, right_peak := -60,
    last_peak_L := 0, last_peak_R := 0 }

/-- `VUMeter.set_levels(left_db, right_db)` called at wall-clock time `now`:
clamp both inputs to [-60, 0] and store them; raise a channel's peak (and
stamp its time) when the clamped level exceeds it; then, if the peak is
older than the 1.5 s hold time, decay it by 0.5 dB, floored at -60. -/
def set_levels (st : VUState) (now left_db right_db : ℝ) : VUState :=
  let l := clamp_db left_db
  let r := clamp_db right_db
  let lp0 := if st.left_peak < l then l else st.left_peak
  let lt0 := if st.left_peak < l then now else st.last_peak_L
  let rp0 := if st.right_peak < r then r else st.right_peak
  let rt0 := if st.right_peak < r then now else st.last_peak_R
  { left_level := l
    right_level := r
    left_peak := if 3/2 < now - lt0 then max (lp0 - 1/2) (-60) else lp0
    right_peak := if 3/2 < now - rt0 then max (rp0 - 1/2) (-60) else rp0
    last_peak_L := lt0
    last_peak_R := rt0 }

/-- `VUMeter.set_levels_from_amplitude`: convert each amplitude through
`amplitude_to_db`, then `set_levels`. -/
def set_levels_from_amplitude (st : VUState) (now left_amp right_amp : ℝ) : VUState :=
  set_levels st now (amplitude_to_db left_amp) (amplitude_to_db right_amp)

/-- `VUMeter.reset`: levels and peaks back to -60 dB. -/
def reset (st : VUState) : VUState :=
  { st with left_level := -60, right_level := -60, left_peak := -60, right_peak := -60 }

/-- One UI-visible VU meter operation. -/
inductive VUOp where
  | setLevels (now left_db right_db : ℝ)
  | setLevelsFromAmplitude (now left_amp right_amp : ℝ)
  | reset

def vu_step (st : VUState) : VUOp → VUState
  | .setLevels now l r => set_levels st now l r
  | .setLevelsFromAmplitude now l r => set_levels_from_amplitude st now l r
  | .reset => reset st

/-- Run a sequence of VU meter operations from the freshly constructed
meter. -/
def vu_run (ops : List VUOp) : VUState :=
  ops.foldl vu_step vu_init

/-- A stored dB value within the meter's displayed range. -/
def db_in_range (x : ℝ) : Prop := -60 ≤ x ∧ x ≤ 0

/-- Both levels and both peak-hold values within [-60, 0]. -/
def vu_inv (st : VUState) : Prop :=
  db_in_range st.left_level ∧ db_in_range st.right_level ∧
  db_in_range st.left_peak ∧ db_in_range st.right_peak

end

end Musicio

namespace Musicio

theorem clip1_bounds (x : ℚ) : -1 ≤ clip1 x ∧ clip1 x ≤ 1 :=
  ⟨le_max_left _ _, max_le (by norm_num) (min_le_left _ _)⟩

theorem callback_frame_idx (backing : List (ℚ × ℚ)) (fx_board) (volume : ℚ)
    (p : Nat) (indata : List ℚ) :
    (audio_callback backing fx_board volume p indata).frame_idx =
      if p < backing.length then min (p + indata.length) backing.length else p := by
  unfold audio_callback
  split <;> rfl

theorem run_positions_min (backing : List (ℚ × ℚ)) (fx_board) (volume : ℚ) (B : Nat)
    (blocks : List (List ℚ)) (h : ∀ blk ∈ blocks, blk.length = B) :
    ∀ k : Nat, run_positions backing fx_board volume blocks (min (k * B) backing.length) =
      min ((k + blocks.length) * B) backing.length := by
  induction blocks with
  | nil => intro k; simp [run_positions]
  | cons blk rest ih =>
    intro k
    have hb : blk.length = B := h blk (List.mem_cons_self _ _)
    have hrest : ∀ b ∈ rest, b.length = B := fun b hbm => h b (List.mem_cons_of_mem _ hbm)
    have hstep : (audio_callback backing fx_board volume
        (min (k * B) backing.length) blk).frame_idx = min ((k + 1) * B) backing.length := by
      rw [callback_frame_idx, hb]
      have hmul : (k + 1) * B = k * B + B := by ring
      rw [hmul]
      split <;> omega
    have := ih hrest (k + 1)
    simp only [run_positions, List.foldl_cons] at *
    rw [hstep]
    rw [this]
    congr 1
    simp only [List.length_cons]
    ring

/-- C1: for a track of `L = backing.length` frames, after the callbacks in
`blocks` (each of block size `B`, no intervening seeks) starting from frame
0, the playback position `frame_idx` equals `min (N * B) L` where `N` is the
number of invocations; and once the position has reached `L`, any further
invocation leaves it at `L`. -/
theorem position_after_callbacks (backing : List (ℚ × ℚ))
    (fx_board : List (ℚ × ℚ) → Option (List (ℚ × ℚ))) (volume : ℚ)
    (B : Nat) (blocks : List (List ℚ)) (h : ∀ blk ∈ blocks, blk.length = B) :
    run_positions backing fx_board volume blocks 0 =
      min (blocks.length * B) backing.length ∧
    ∀ blk : List ℚ,
      (audio_callback backing fx_board volume backing.length blk).frame_idx =
        backing.length := by
  constructor
  · have h0 := run_positions_min backing fx_board volume B blocks h 0
    simpa using h0
  · intro blk
    rw [callback_frame_idx]
    simp

/-- Witness for C1: a 3-frame track, two callbacks of block size 1 land the
position at `min (2 * 1) 3 = 2`; a callback at position 3 stays at 3. -/
theorem position_after_callbacks_witness :
    run_positions [(0, 0), (0, 0), (0, 0)] (fun l => some l) 1 [[1], [1]] 0 =
      min (2 * 1) 3 ∧
    (audio_callback [(0, 0), (0, 0), (0, 0)] (fun l => some l) 1 3 [1]).frame_idx = 3 := by
  have h := position_after_callbacks [(0, 0), (0, 0), (0, 0)] (fun l => some l) 1 1
    [[1], [1]] (by decide)
  exact ⟨h.1, h.2 [1]⟩

/-- C2: for every `fx_params` snapshot, the chain built by
`rebuild_fx_board` is Compressor, EQ bass band (100 Hz), EQ mid band
(3 kHz), EQ treble band (10 kHz), then Delay (echo) exactly when
`echo_mix > 0.01`, then Reverb; its stage count is 5 when
`echo_mix ≤ 0.01` and 6 otherwise. -/
theorem fx_chain_order_and_count (p : FxParams) :
    ((rebuild_fx_board p).map Stage.kind =
      [StageKind.compressor, StageKind.peakFilter, StageKind.peakFilter,
        StageKind.peakFilter] ++
        (if p.echo_mix > 1/100 then [StageKind.delay] else []) ++
        [StageKind.reverb]) ∧
    ((rebuild_fx_board p).length = if p.echo_mix ≤ 1/100 then 5 else 6) ∧
    (rebuild_fx_board p).take 4 =
      [Stage.compressor p.compressor_threshold p.compressor_ratio 3 100,
       Stage.peakFilter 100 p.eq_bass (7/10),
       Stage.peakFilter 3000 p.eq_mid 1,
       Stage.peakFilter 10000 p.eq_treble (7/10)] ∧
    (rebuild_fx_board p).getLast? =
      some (Stage.reverb p.reverb_room_size (1/2) p.reverb_wet (1 - p.reverb_wet) 1) := by
  rcases le_or_lt p.echo_mix (1/100) with h | h
  · have h' : ¬ (p.echo_mix > 1/100) := not_lt.mpr h
    simp only [rebuild_fx_board, if_neg h', if_pos h]
    exact ⟨rfl, rfl, rfl, rfl⟩
  · have h' : ¬ (p.echo_mix ≤ 1/100) := not_le.mpr h
    simp only [rebuild_fx_board, if_pos h, if_neg h']
    exact ⟨rfl, rfl, rfl, rfl⟩

/-- C3 fails as stated: the end-of-track branch of `audio_callback` writes
the processed microphone block to `outdata` without clipping, so an
over-full-scale input sample (2.0) reaches the output unchanged, outside
[-1, 1]. -/
theorem end_branch_unclipped_cex :
    (audio_callback [(0, 0)] (fun blk => some blk) 1 1 [2]).outdata = [(2, 2)] ∧
    ¬ ((2 : ℚ) ≤ 1) := by
  constructor
  · norm_num [audio_callback, mic_out, mic_stereo, scaleFrame]
  · norm_num

/-- C3 amended: in the mid-track branch (position still inside the backing
track) every sample written to the output lies in [-1, 1], for all backing
and microphone amplitudes, every effects chain and every volume; the
end-of-track branch is not clipped (see the counterexample). -/
theorem mid_branch_clipped (backing : List (ℚ × ℚ))
    (fx_board : List (ℚ × ℚ) → Option (List (ℚ × ℚ))) (volume : ℚ)
    (p : Nat) (indata : List ℚ) (hp : p < backing.length) :
    ∀ f ∈ (audio_callback backing fx_board volume p indata).outdata,
      -1 ≤ f.1 ∧ f.1 ≤ 1 ∧ -1 ≤ f.2 ∧ f.2 ≤ 1 := by
  intro f hf
  unfold audio_callback at hf
  rw [if_pos hp] at hf
  simp only [List.mem_map] at hf
  obtain ⟨g, _, rfl⟩ := hf
  exact ⟨(clip1_bounds g.1).1, (clip1_bounds g.1).2,
    (clip1_bounds g.2).1, (clip1_bounds g.2).2⟩

/-- Witness for C3's amended statement: a full-scale-exceeding microphone
sample (5.0) at volume 3 is clipped to 1.0 in the mid-track branch. -/
theorem mid_branch_clipped_witness :
    (audio_callback [(0, 0)] (fun blk => some blk) 3 0 [5]).outdata = [(1, 1)] ∧
    (-1 ≤ ((1 : ℚ), (1 : ℚ)).1 ∧ ((1 : ℚ), (1 : ℚ)).1 ≤ 1 ∧
      -1 ≤ ((1 : ℚ), (1 : ℚ)).2 ∧ ((1 : ℚ), (1 : ℚ)).2 ≤ 1) := by
  have hout : (audio_callback [(0, 0)] (fun blk => some blk) 3 0 [5]).outdata = [(1, 1)] := by
    norm_num [audio_callback, backing_slice, mic_out, mic_stereo, scaleFrame, addFrame,
      clipFrame, clip1, min_def, max_def]
  have hmem : ((1 : ℚ), (1 : ℚ)) ∈
      (audio_callback [(0, 0)] (fun blk => some blk) 3 0 [5]).outdata := by
    rw [hout]
    exact List.mem_singleton.mpr rfl
  exact ⟨hout,
    mid_branch_clipped [(0, 0)] (fun blk => some blk) 3 0 [5] (by norm_num) (1, 1) hmem⟩

/-- C4 fails as stated: with the transport paused (`is_playing = false`) a
callback on a 2-frame track still advances the position from 0 to 1 and
still mixes the backing track (output 1/2, not silence) — the engine never
reads the flag. -/
theorem pause_ignored_cex :
    (toggle_play_pause { is_playing := true, frame_idx := 0 }).is_playing = false ∧
    callback_step [((1 : ℚ)/2, (1 : ℚ)/2), (1/2, 1/2)] (fun blk => some blk) 1
        { is_playing := false, frame_idx := 0 } [0] =
      ({ is_playing := false, frame_idx := 1 }, [(1/2, 1/2)]) ∧
    (1 : Nat) ≠ 0 := by
  refine ⟨rfl, ?_, by decide⟩
  norm_num [callback_step, audio_callback, backing_slice, mic_out, mic_stereo,
    scaleFrame, addFrame, clipFrame, clip1, min_def, max_def]

/-- C4 amended: `toggle_play_pause` only flips the `is_playing` flag; the
audio callback's behaviour is identical for paused and playing states —
with the same position and input, both the advanced position and the output
block are the same whatever the flag, so pausing neither freezes the
position nor silences the backing track. -/
theorem pause_flag_no_effect (backing : List (ℚ × ℚ))
    (fx_board : List (ℚ × ℚ) → Option (List (ℚ × ℚ))) (volume : ℚ)
    (fi : Nat) (indata : List ℚ) (b b' : Bool) (st : PlayerState) :
    ((callback_step backing fx_board volume
        { is_playing := b, frame_idx := fi } indata).1.frame_idx =
      (callback_step backing fx_board volume
        { is_playing := b', frame_idx := fi } indata).1.frame_idx) ∧
    ((callback_step backing fx_board volume
        { is_playing := b, frame_idx := fi } indata).2 =
      (callback_step backing fx_board volume
        { is_playing := b', frame_idx := fi } indata).2) ∧
    (toggle_play_pause st).is_playing = !st.is_playing ∧
    (toggle_play_pause st).frame_idx = st.frame_idx :=
  ⟨rfl, rfl, rfl, rfl⟩

/-- C5 fails as stated: `on_slider_change` stores the raw value — writing
reverb room-size 1.5 stores 1.5 (outside [0, 1]) and writing compressor
ratio 0 stores 0 (outside [1, 20]); re-reading returns the raw value, not a
clamped one. -/
theorem slider_write_unclamped_cex :
    fx_param (on_slider_change default_fx_params FxKey.reverb_room_size (3/2))
        FxKey.reverb_room_size = 3/2 ∧
    ¬ ((3 : ℚ)/2 ≤ 1) ∧
    fx_param (on_slider_change default_fx_params FxKey.compressor_ratio 0)
        FxKey.compressor_ratio = 0 ∧
    ¬ ((1 : ℚ) ≤ 0) := by
  refine ⟨rfl, by norm_num, rfl, by norm_num⟩

/-- C5 amended: a parameter write through `on_slider_change` stores the
written value unchanged — no clamping, no error — and re-reading the key
returns exactly the value that was written; range enforcement exists only
in the slider widget's `from_`/`to` bounds, not in the setter. -/
theorem slider_write_stores_raw (p : FxParams) (k : FxKey) (v : ℚ) :
    fx_param (on_slider_change p k v) k = v := by
  cases k <;> rfl

/-- C6: for every integer target (negative or beyond the track length
included) on a nonempty track, the stored post-seek position is the target
clamped into [0, trackLength); and the next callback finds that clamped
position, enters the mid-track branch, and reads the backing-track slice
starting at that clamped frame (not at the pre-seek position, which the
seek overwrote). -/
theorem seek_clamps_and_next_read (backing : List (ℚ × ℚ)) (st : PlayerState)
    (position_samples : Int) (h : 0 < backing.length) :
    (player_seek backing.length st position_samples).frame_idx =
      seek_to backing.length position_samples ∧
    seek_to backing.length position_samples < backing.length ∧
    (seek_to backing.length position_samples : Int) =
      max 0 (min position_samples ((backing.length : Int) - 1)) ∧
    ∀ fx_board volume indata,
      audio_callback backing fx_board volume
          (player_seek backing.length st position_samples).frame_idx indata =
        { frame_idx := min (seek_to backing.length position_samples + indata.length)
            backing.length
          outdata := (List.zipWith addFrame
            (backing_slice backing (seek_to backing.length position_samples)
              indata.length)
            (mic_out fx_board volume indata)).map clipFrame } := by
  have hlt : seek_to backing.length position_samples < backing.length := by
    unfold seek_to
    omega
  refine ⟨rfl, hlt, ?_, ?_⟩
  · unfold seek_to
    omega
  · intro fx_board volume indata
    show audio_callback backing fx_board volume
      (seek_to backing.length position_samples) indata = _
    unfold audio_callback
    rw [if_pos hlt]

/-- Witness for C6: seeking to frame 100000 on a 3-frame track stores
position 2 = min(100000, 3 - 1) and the position is inside the track. -/
theorem seek_clamps_and_next_read_witness :
    (player_seek 3 { is_playing := true, frame_idx := 0 } 100000).frame_idx =
      seek_to 3 100000 ∧
    seek_to 3 100000 < 3 := by
  have h := seek_clamps_and_next_read [(0, 0), (0, 0), (0, 0)]
    { is_playing := true, frame_idx := 0 } 100000 (by decide)
  exact ⟨h.1, h.2.1⟩

/-- C7: when the effects chain raises on a block (modelled as `none`), the
callback behaves exactly as if the chain were the identity: the output uses
the unprocessed microphone block scaled by the output volume, nothing
propagates out, and the position advance (which never depends on the chain)
and the backing-track mix are unaffected. -/
theorem fx_exception_fallback (backing : List (ℚ × ℚ))
    (fx_board : List (ℚ × ℚ) → Option (List (ℚ × ℚ))) (volume : ℚ)
    (fi : Nat) (indata : List ℚ)
    (hfail : fx_board (mic_stereo indata) = none) :
    audio_callback backing fx_board volume fi indata =
      audio_callback backing (fun blk => some blk) volume fi indata ∧
    ∀ fx' : List (ℚ × ℚ) → Option (List (ℚ × ℚ)),
      (audio_callback backing fx_board volume fi indata).frame_idx =
        (audio_callback backing fx' volume fi indata).frame_idx := by
  have hmic : mic_out fx_board volume indata =
      mic_out (fun blk => some blk) volume indata := by
    unfold mic_out
    rw [hfail]
  constructor
  · unfold audio_callback
    rw [hmic]
  · intro fx'
    rw [callback_frame_idx, callback_frame_idx]

/-- Witness for C7: a chain that always raises produces the same callback
result as the identity chain on a concrete block. -/
theorem fx_exception_fallback_witness :
    audio_callback [((0 : ℚ), (0 : ℚ))] (fun _ => none) 1 0 [1] =
      audio_callback [((0 : ℚ), (0 : ℚ))] (fun blk => some blk) 1 0 [1] :=
  (fx_exception_fallback [(0, 0)] (fun _ => none) 1 0 [1] rfl).1

/-- C8 fails as stated: a zero-length backing track is not rejected —
`karaoke_record_mix` finds the (0-frame) file, loads it, and reaches the
stream-open step anyway. -/
theorem zero_length_opens_stream_cex :
    karaoke_record_mix (fun _ => some 0)
      { stream_active := false, backing_track := some "backing.wav",
        output_backing := none } = StartOutcome.streamOpened 0 ∧
    StartOutcome.streamOpened 0 ≠ StartOutcome.rejected := by
  exact ⟨rfl, by decide⟩

/-- C8 amended: a missing backing track (no stored path and none found in
the output folder, or a stored path whose file is gone with no substitute)
is rejected at session start before the stream-open step; but a readable
track of any frame count — zero included — is loaded and the stream is
opened, with no zero-length check. -/
theorem session_start_rejection (fs : String → Option Nat) (st : AppState)
    (hs : st.stream_active = false) :
    (st.backing_track = none → st.output_backing = none →
      karaoke_record_mix fs st = StartOutcome.rejected) ∧
    (∀ path, st.backing_track = some path → fs path = none →
      st.output_backing = none →
      karaoke_record_mix fs st = StartOutcome.rejected) ∧
    (∀ path frames, st.backing_track = some path → fs path = some frames →
      karaoke_record_mix fs st = StartOutcome.streamOpened frames) := by
  refine ⟨?_, ?_, ?_⟩
  · intro h1 h2
    simp [karaoke_record_mix, hs, h1, h2]
  · intro path h1 h2 h3
    simp [karaoke_record_mix, hs, h1, h2, h3]
  · intro path frames h1 h2
    simp [karaoke_record_mix, hs, h1, h2]

/-- Witness for C8's amended statement: with no stored path and an empty
output folder the start is rejected; with a stored path to a 0-frame file
the stream is opened. -/
theorem session_start_rejection_witness :
    karaoke_record_mix (fun _ => none)
      { stream_active := false, backing_track := none, output_backing := none } =
      StartOutcome.rejected ∧
    karaoke_record_mix (fun _ => some 0)
      { stream_active := false, backing_track := some "a.wav",
        output_backing := none } = StartOutcome.streamOpened 0 := by
  constructor
  · exact (session_start_rejection (fun _ => none)
      { stream_active := false, backing_track := none, output_backing := none }
      rfl).1 rfl rfl
  · exact (session_start_rejection (fun _ => some 0)
      { stream_active := false, backing_track := some "a.wav",
        output_backing := none } rfl).2.2 "a.wav" 0 rfl rfl

theorem clamp_db_mem (x : ℝ) : db_in_range (clamp_db x) :=
  ⟨le_max_left _ _, max_le (by norm_num) (min_le_left _ _)⟩

theorem amplitude_to_db_mem (a : ℝ) : db_in_range (amplitude_to_db a) := by
  unfold amplitude_to_db
  split
  · exact ⟨le_refl _, by norm_num⟩
  · exact clamp_db_mem _

theorem peak_update_mem (peak new now lastt : ℝ)
    (hp : db_in_range peak) (hn : db_in_range new) :
    db_in_range (if 3/2 < now - (if peak < new then now else lastt)
      then max ((if peak < new then new else peak) - 1/2) (-60)
      else (if peak < new then new else peak)) := by
  obtain ⟨hp1, hp2⟩ := hp
  obtain ⟨hn1, hn2⟩ := hn
  unfold db_in_range
  split_ifs <;>
    refine ⟨?_, ?_⟩ <;>
    first
      | exact le_max_right _ _
      | exact max_le (by linarith) (by norm_num)
      | linarith

theorem set_levels_inv (st : VUState) (now left_db right_db : ℝ)
    (h : vu_inv st) : vu_inv (set_levels st now left_db right_db) := by
  obtain ⟨_, _, hlp, hrp⟩ := h
  unfold set_levels
  dsimp only
  exact ⟨clamp_db_mem _, clamp_db_mem _,
    peak_update_mem st.left_peak (clamp_db left_db) now st.last_peak_L hlp
      (clamp_db_mem _),
    peak_update_mem st.right_peak (clamp_db right_db) now st.last_peak_R hrp
      (clamp_db_mem _)⟩

theorem vu_step_inv (st : VUState) (op : VUOp) (h : vu_inv st) :
    vu_inv (vu_step st op) := by
  cases op with
  | setLevels now l r => exact set_levels_inv st now l r h
  | setLevelsFromAmplitude now l r =>
    exact set_levels_inv st now (amplitude_to_db l) (amplitude_to_db r) h
  | reset =>
    show vu_inv (reset st)
    unfold reset vu_inv db_in_range
    norm_num

/-- C10: after any sequence of VU meter operations (`set_levels` with
arbitrary real dB inputs, `set_levels_from_amplitude` with arbitrary
amplitudes, `reset`, at arbitrary wall-clock times) the stored left/right
levels and left/right peak-hold values all lie in [-60, 0]: inputs are
clamped before storing, peaks only rise to already-clamped levels, and the
peak decay is floored at -60. -/
theorem vu_levels_in_range (ops : List VUOp) : vu_inv (vu_run ops) := by
  have general : ∀ l : List VUOp, ∀ st : VUState, vu_inv st →
      vu_inv (List.foldl vu_step st l) := by
    intro l
    induction l with
    | nil => intro st h; exact h
    | cons op rest ih => intro st h; exact ih _ (vu_step_inv st op h)
  refine general ops vu_init ?_
  unfold vu_init vu_inv db_in_range
  norm_num

/-- C9: for every x in [-60, 0], `amplitude_to_db` applied to the linear
amplitude `10^(x/20)` returns exactly x (the real-arithmetic form of
"within floating-point tolerance"), and `amplitude_to_db 0` returns exactly
-60, the floor, never negative infinity. -/
theorem amplitude_db_roundtrip :
    (∀ x : ℝ, -60 ≤ x → x ≤ 0 →
      amplitude_to_db ((10 : ℝ) ^ (x / 20)) = x) ∧
    amplitude_to_db 0 = -60 := by
  constructor
  · intro x h1 h2
    have hpos : (0 : ℝ) < (10 : ℝ) ^ (x / 20) :=
      Real.rpow_pos_of_pos (by norm_num) _
    unfold amplitude_to_db
    rw [if_neg (not_le.mpr hpos)]
    rw [Real.logb_rpow (by norm_num) (by norm_num)]
    unfold clamp_db
    have h20 : 20 * (x / 20) = x := by ring
    rw [h20, min_eq_right h2, max_eq_right h1]
  · unfold amplitude_to_db
    rw [if_pos le_rfl]

/-- Witness for C9: the -20 dB amplitude `10^(-1)` maps back to exactly
-20, and amplitude 0 maps to the -60 floor. -/
theorem amplitude_db_roundtrip_witness :
    amplitude_to_db ((10 : ℝ) ^ ((-20 : ℝ) / 20)) = -20 :=
  amplitude_db_roundtrip.1 (-20) (by norm_num) (by norm_num)

end Musicio
